import Mathlib

/-!
Verification of the form autosave/recovery engine of the `eastwestbiz/form`
repository (`FormAutoSaveService` in the autosave source file, plus the
`submitForm` flow of the application controller).

The JavaScript code is shallowly embedded: DOM form elements become a list of
`Element` records, the single `localStorage` slot becomes an `Option Stored`,
`JSON.stringify`/`JSON.parse` are modelled by the `Stored` sum (a stored string
either parses back to the snapshot it serialized, or is junk that
`JSON.parse` rejects), timers become explicit scheduled fire times, and the
`fetch` outcomes become explicit parameters.
-/

/-- A DOM form element as seen by the service: `name`, `id`, `type`
(field `ty`), current `value` and `checked` state. -/
structure Element where
  name : String
  id : String
  ty : String
  value : String
  checked : Bool
deriving DecidableEq

/-- JS `element.name || element.id`: the name unless it is empty, else the id
(possibly `""` when both are empty, which is falsy). -/
def rawKey (e : Element) : String :=
  if e.name = "" then e.id else e.name

/-- `element.type === 'checkbox' || element.type === 'radio'`. -/
def isCheckable (ty : String) : Bool :=
  ty == "checkbox" || ty == "radio"

/-- A persisted form snapshot: the JS object built by `getFormData`.
`fields` keeps the element-contributed entries in insertion order (JS object
property order); `timestamp` and `formId` are the `_timestamp` / `_formId`
metadata slots, which in the JS object shadow any same-named field entry
(see `jsGet`). -/
structure Snapshot where
  fields : List (String × String)
  timestamp : Nat
  formId : String
deriving DecidableEq

/-- A JSON value that can sit in the snapshot object: `_timestamp` is a
number, everything else is a string. -/
inductive JsVal where
  | str (s : String)
  | num (n : Nat)
deriving DecidableEq

/-- JS object assignment `m[k] = v`: update the existing slot in place,
otherwise append a new one. -/
def setField : List (String × String) → String → String → List (String × String)
  | [], k, v => [(k, v)]
  | (k', v') :: rest, k, v =>
      if k' = k then (k, v) :: rest else (k', v') :: setField rest k v

/-- Property read `formData[key]` / `key in formData` on the snapshot object:
the metadata slots `_timestamp` and `_formId` (assigned last by `getFormData`)
shadow any field entry of the same name. -/
def jsGet (s : Snapshot) (k : String) : Option JsVal :=
  if k = "_timestamp" then some (.num s.timestamp)
  else if k = "_formId" then some (.str s.formId)
  else (s.fields.lookup k).map .str

/-- One iteration of the `getFormData` element loop: skip elements with
neither name nor id, store `checked ? value : ''` for checkbox/radio, skip
file inputs, store the raw value otherwise. -/
def captureStep (m : List (String × String)) (e : Element) : List (String × String) :=
  if rawKey e = "" then m
  else if isCheckable e.ty then setField m (rawKey e) (if e.checked then e.value else "")
  else if e.ty = "file" then m
  else setField m (rawKey e) e.value

/-- `FormAutoSaveService.getFormData` on a located form: fold the element
loop, then attach the `_timestamp = Date.now()` and `_formId` metadata. -/
def getFormData (es : List Element) (cur : String) (now : Nat) : Snapshot :=
  { fields := es.foldl captureStep []
    timestamp := now
    formId := cur }

/-- The value `getFormData` would store for a contributing element. -/
def contrib (e : Element) : String :=
  if isCheckable e.ty then (if e.checked then e.value else "") else e.value

/-- The keys the `getFormData` loop writes, in element order (duplicates
possible; the last occurrence wins in the object). -/
def fieldKeys (es : List Element) : List String :=
  es.filterMap fun e =>
    if rawKey e = "" then none
    else if e.ty = "file" then none
    else some (rawKey e)

/-- Contents of the single `localStorage` slot: a stored string either
parses back to the snapshot that `JSON.stringify` serialized (`parsable`),
or is a corrupt string `JSON.parse` throws on (`junk`). -/
inductive Stored where
  | parsable (snap : Snapshot)
  | junk (raw : String)
deriving DecidableEq

/-- `saveToLocalStorage`: overwrite the single storage slot with the
serialized snapshot (success path of the guarded `setItem`). -/
def saveToLocalStorage (_storage : Option Stored) (data : Snapshot) : Option Stored :=
  some (.parsable data)

-- ### Restoration engine

/-- Custom substring test on character lists (does `l` start with `sub`). -/
def leadsWith : List Char → List Char → Bool
  | [], _ => true
  | _ :: _, [] => false
  | a :: s, b :: t => a == b && leadsWith s t

/-- Does `l` contain `sub` as a contiguous run. -/
def hasSub (sub : List Char) : List Char → Bool
  | [] => leadsWith sub []
  | c :: t => leadsWith sub (c :: t) || hasSub sub t

/-- JS `s.includes(sub)`. -/
def strIncludes (s sub : String) : Bool :=
  hasSub sub.toList s.toList

/-- Leading JS whitespace removal on a character list. -/
def dropLeadingSpace : List Char → List Char
  | [] => []
  | c :: t =>
      if c == ' ' || c == '\t' || c == '\n' || c == '\r' then dropLeadingSpace t
      else c :: t

/-- JS `value.trim()`: strip whitespace from both ends. -/
def jsTrim (s : String) : String :=
  ⟨(dropLeadingSpace ((dropLeadingSpace s.toList).reverse)).reverse⟩

/-- `FormAutoSaveService.isFormFilled` body on a located form: some element of
type text/email/tel has a non-blank value, excluding any element whose id
contains `"Name"` (the code's "skip file name indicators" test) and the
`declarationSignature` element. -/
def isFormFilled (es : List Element) : Bool :=
  es.any fun e =>
    (e.ty == "text" || e.ty == "email" || e.ty == "tel") &&
      jsTrim e.value != "" &&
      !(strIncludes e.id "Name") &&
      e.id != "declarationSignature"

/-- JS `formData[key] === element.value` (strict equality; a number is never
strictly equal to a string). -/
def jsEqStr (v : JsVal) (s : String) : Bool :=
  match v with
  | .str s' => s' == s
  | .num _ => false

/-- JS `formData[key] || ''` coerced to the string a value assignment to
`element.value` produces. -/
def jsOrEmpty (v : JsVal) : String :=
  match v with
  | .str s => s
  | .num n => if n = 0 then "" else toString n

/-- One iteration of the `restoreSavedData` element loop: if the element's
key is a property of the snapshot object, set the checked state of a
checkbox/radio, or the value of any non-file element. -/
def restoreElem (snap : Snapshot) (e : Element) : Element :=
  match jsGet snap (rawKey e) with
  | none => e
  | some v =>
      if isCheckable e.ty then { e with checked := jsEqStr v e.value }
      else if e.ty = "file" then e
      else { e with value := jsOrEmpty v }

/-- The `restoreSavedData` element loop over a located form. -/
def restoreIntoForm (snap : Snapshot) (es : List Element) : List Element :=
  es.map (restoreElem snap)

/-- `document.getElementById(this.currentFormId)` guard used by
`isFormFilled`: a missing form reports not-filled. -/
def isFormFilledDoc (doc : String → Option (List Element)) (cur : String) : Bool :=
  match doc cur with
  | some es => isFormFilled es
  | none => false

/-- `FormAutoSaveService.restoreSavedData` over the document (a map from
element id to form): no stored data or a corrupt payload leaves the document
untouched (the `JSON.parse` exception is caught); otherwise the form named by
`formData._formId || currentFormId` is looked up, skipped when absent or when
the *current* form is already filled, and otherwise rewritten field by field. -/
def restoreSavedData (storage : Option Stored)
    (doc : String → Option (List Element)) (cur : String) :
    String → Option (List Element) :=
  match storage with
  | none => doc
  | some (.junk _) => doc
  | some (.parsable fd) =>
      let fid := if fd.formId = "" then cur else fd.formId
      match doc fid with
      | none => doc
      | some form =>
          if isFormFilledDoc doc cur then doc
          else fun k => if k = fid then some (restoreIntoForm fd form) else doc k

/-- The one-form document used when a single form is on the page. -/
def docOf (cur : String) (es : List Element) : String → Option (List Element) :=
  fun k => if k = cur then some es else none

-- ### Round-trip: restore into a fresh instance of the same form

/-- A freshly loaded instance `e'` of element `e`: same name, id and type;
checkbox/radio elements keep their HTML `value` attribute (text-like values
and default checked state are unconstrained here; emptiness of the fresh form
is imposed separately through `isFormFilled`). -/
def freshPairB (e e' : Element) : Bool :=
  e'.name == e.name && e'.id == e.id && e'.ty == e.ty &&
    (!isCheckable e.ty || e'.value == e.value)

/-- Pointwise fresh-instance relation between two forms. -/
def freshListB : List Element → List Element → Bool
  | [], [] => true
  | e :: es, e' :: es' => freshPairB e e' && freshListB es es'
  | _, _ => false

-- ### Debounce timers, remote sync, submission, file upload, unload

/-- The 2-second debounce window of `handleFormChange`. -/
def DEBOUNCE_MS : Nat := 2000

/-- `this.MAX_RETRIES`. -/
def MAX_RETRIES : Nat := 3

/-- `this.SAVE_INTERVAL` (30 seconds). -/
def SAVE_INTERVAL : Nat := 30000

/-- Timer-visible state of the service: the scheduled fire time of the
pending `setTimeout` held in `this.saveTimer`, and the times at which
`saveFormData` has executed. -/
structure DebounceState where
  saveTimer : Option Nat
  fired : List Nat
deriving DecidableEq

/-- Event-loop progress to time `t`: a pending timer due at or before `t`
fires (executing `saveFormData`), otherwise nothing happens. -/
def deliverDue (s : DebounceState) (t : Nat) : DebounceState :=
  match s.saveTimer with
  | some f => if f ≤ t then { saveTimer := none, fired := s.fired ++ [f] } else s
  | none => s

/-- `FormAutoSaveService.handleFormChange` at time `t`: if autosave is
enabled, `clearTimeout(this.saveTimer)` followed by
`this.saveTimer = setTimeout(saveFormData, 2000)` — any previously scheduled
save is cancelled and a save is scheduled for `t + 2000`. -/
def handleFormChange (enabled : Bool) (s : DebounceState) (t : Nat) : DebounceState :=
  let s := deliverDue s t
  if enabled then { s with saveTimer := some (t + DEBOUNCE_MS) } else s

/-- Timer-visible effect of the forced `saveFormData(true)` call made by the
`beforeunload` handler at time `t`: the save runs immediately;
`this.saveTimer` is not touched (`saveFormData` contains no `clearTimeout`). -/
def forcedSaveAt (enabled : Bool) (s : DebounceState) (t : Nat) : DebounceState :=
  let s := deliverDue s t
  if enabled then { s with fired := s.fired ++ [t] } else s

/-- Process a burst of `handleFormChange` calls from the initial state. -/
def runChanges (enabled : Bool) (ts : List Nat) : DebounceState :=
  ts.foldl (handleFormChange enabled) ⟨none, []⟩

/-- Let all remaining time pass: a still-pending timer fires. Returns every
`saveFormData` execution time of the run. -/
def drain (s : DebounceState) : List Nat :=
  match s.saveTimer with
  | some f => s.fired ++ [f]
  | none => s.fired

/-- Outcome of one `fetch` of the autosave endpoint: `ok` is an HTTP reply
with `success: true`; `fail` covers a thrown network error and an
endpoint-reported failure (both land in the same `catch`). -/
inductive SyncOutcome where
  | ok
  | fail
deriving DecidableEq

/-- What `syncToServer` does besides returning: schedule one retry via
`setTimeout(..., 5000)`, surface the working-offline error, or nothing. -/
inductive SyncEffect where
  | quiet
  | retryAfter (ms : Nat)
  | offlineNotice
deriving DecidableEq

/-- A request body actually POSTed to the remote endpoint by `syncToServer`
(`action: 'autoSaveForm'`). -/
structure Push where
  csrfToken : String
  formData : Snapshot
deriving DecidableEq

/-- The service's fields relevant to persistence and sync:
`this.{STORAGE_KEY slot, enabled, csrfToken, retryCount, lastSyncTime}`
(`lastSyncTime` starts undefined and is read as `this.lastSyncTime || 0`). -/
structure SvcState where
  storage : Option Stored
  enabled : Bool
  csrfToken : Option String
  retryCount : Nat
  lastSyncTime : Nat
deriving DecidableEq

/-- `FormAutoSaveService.loadCsrfToken`: on a `{success, csrfToken}` reply
the token is stored; on failure (caught) the current token is kept. -/
def loadCsrfToken (cur : Option String) (resp : Option String) : Option String :=
  match resp with
  | some tok => some tok
  | none => cur

/-- `FormAutoSaveService.syncToServer`: if no CSRF token is held, first run
`loadCsrfToken` (outcome `fetchResp`) and return without pushing if the token
is still absent (leaving `retryCount` untouched). Otherwise POST the
snapshot. On `success`: reset `retryCount`, record `lastSyncTime`. On
failure: increment `retryCount`; schedule one retry in 5000 ms while the new
count is below `MAX_RETRIES`, otherwise surface the working-offline notice
(and schedule nothing). -/
def syncToServer (st : SvcState) (fetchResp : Option String)
    (outcome : SyncOutcome) (fd : Snapshot) (now : Nat) :
    SvcState × Option Push × SyncEffect :=
  match (match st.csrfToken with
         | some t => some t
         | none => loadCsrfToken none fetchResp) with
  | none => (st, none, .quiet)
  | some t =>
      match outcome with
      | .ok =>
          ({ st with csrfToken := some t, retryCount := 0, lastSyncTime := now },
            some ⟨t, fd⟩, .quiet)
      | .fail =>
          ({ st with csrfToken := some t, retryCount := st.retryCount + 1 },
            some ⟨t, fd⟩,
            if st.retryCount + 1 < MAX_RETRIES then .retryAfter 5000
            else .offlineNotice)

/-- `FormAutoSaveService.saveFormData` (storage/sync effect): no-op when
disabled; otherwise capture the form, write it to local storage, and sync to
the server when forced or when `SAVE_INTERVAL` has elapsed since the last
successful sync. -/
def saveFormData (st : SvcState) (form : List Element) (cur : String)
    (now : Nat) (forceSync : Bool) (fetchResp : Option String)
    (outcome : SyncOutcome) : SvcState × Option Push × SyncEffect :=
  if st.enabled then
    let fd := getFormData form cur now
    let st' := { st with storage := saveToLocalStorage st.storage fd }
    if forceSync || decide (now - st.lastSyncTime > SAVE_INTERVAL) then
      syncToServer st' fetchResp outcome fd now
    else (st', none, .quiet)
  else (st, none, .quiet)

/-- `FormAutoSaveService.handleFileUpload`: nothing when disabled or no file
selected; on a failed upload the exception is caught (UI only); on success
the current form is captured, the uploaded file's URL is written into the
snapshot under the file input's id, and the snapshot is persisted. -/
def handleFileUpload (st : SvcState) (form : List Element) (cur : String)
    (fileInput : Element) (hasFile : Bool) (uploadResult : Option String)
    (now : Nat) : SvcState :=
  if st.enabled then
    if hasFile then
      match uploadResult with
      | some fileUrl =>
          let fd := getFormData form cur now
          let fd2 := { fd with fields := setField fd.fields fileInput.id fileUrl }
          { st with storage := saveToLocalStorage st.storage fd2 }
      | none => st
    else st
  else st

/-- `FormAutoSaveService.clearSavedData`: remove the stored snapshot. -/
def clearSavedData (_storage : Option Stored) : Option Stored := none

/-- `FormAutoSaveService.setEnabled`: record the flag; when disabling, also
clear the stored snapshot. -/
def setEnabled (enabled : Bool) (storage : Option Stored) : Bool × Option Stored :=
  (enabled, if enabled then storage else clearSavedData storage)

/-- Application-controller state touched by `submitForm`: the shared
`localStorage` autosave slot, the autosave service's `enabled` flag, and the
success modal (message, reference id shown). -/
structure AppState where
  storage : Option Stored
  autosaveEnabled : Bool
  successModal : Option (String × String)
deriving DecidableEq

/-- A reply envelope from the remote endpoint for `submitApplication` /
`updateUserData`. -/
structure ApiResponse where
  success : Bool
  applicationId : String
  message : String
deriving DecidableEq

/-- The application controller's `submitForm(formType, formData)` as far as
persistent state is concerned: on a `success` reply it shows the success
modal; on failure the error is handled (UI only). It never touches the
autosave storage slot and never disables the autosave service. -/
def submitForm (formType : String) (uniqueId : String) (resp : ApiResponse)
    (st : AppState) : AppState :=
  if resp.success then
    if formType == "register" then
      { st with successModal := some ("Application submitted successfully!", resp.applicationId) }
    else
      { st with successModal := some ("Update submitted successfully!", uniqueId) }
  else st

/-- `FormAutoSaveService.hasUnsavedChanges`: false with no stored string;
otherwise compare the stored string with `JSON.stringify(this.getFormData())`
(string comparison; `JSON.stringify` is injective on snapshot objects and a
junk string is never a stringify output, so the comparison is modelled on
the parsed values). -/
def hasUnsavedChanges (storage : Option Stored) (current : Snapshot) : Bool :=
  match storage with
  | none => false
  | some (.parsable s) => decide (s ≠ current)
  | some (.junk _) => true

/-- Outcome of the `beforeunload` handler. -/
structure UnloadResult where
  savedNow : Bool
  promptShown : Bool
deriving DecidableEq

/-- The `beforeunload` handler: when `hasUnsavedChanges()`, force an
immediate save and request the confirm-leave prompt
(`e.preventDefault(); e.returnValue = ...`); otherwise do nothing. -/
def onBeforeUnload (storage : Option Stored) (current : Snapshot) : UnloadResult :=
  if hasUnsavedChanges storage current then ⟨true, true⟩ else ⟨false, false⟩


-- ### Lookup lemmas for the JS-object model

theorem lookup_setField_self (m : List (String × String)) (k v : String) :
    (setField m k v).lookup k = some v := by
  induction m with
  | nil => simp [setField]
  | cons p rest ih =>
      obtain ⟨k', v'⟩ := p
      by_cases h : k' = k
      · simp [setField, h]
      · simp [setField, h, List.lookup, ih, beq_false_of_ne (Ne.symm h)]

theorem lookup_setField_ne (m : List (String × String)) (k v k' : String) (h : k' ≠ k) :
    (setField m k v).lookup k' = m.lookup k' := by
  induction m with
  | nil => simp [setField, List.lookup, beq_false_of_ne h]
  | cons p rest ih =>
      obtain ⟨a, b⟩ := p
      by_cases ha : a = k
      · subst ha
        simp [setField, List.lookup, beq_false_of_ne h]
      · by_cases hk : k' = a
        · subst hk
          simp [setField, ha, List.lookup]
        · simp [setField, ha, List.lookup, beq_false_of_ne hk, ih]

theorem mem_fieldKeys_iff (es : List Element) (k : String) :
    k ∈ fieldKeys es ↔
      ∃ e ∈ es, rawKey e = k ∧ rawKey e ≠ "" ∧ e.ty ≠ "file" := by
  simp only [fieldKeys, List.mem_filterMap]
  constructor
  · rintro ⟨e, he, hk⟩
    by_cases h1 : rawKey e = ""
    · simp [h1] at hk
    · by_cases h2 : e.ty = "file"
      · simp [h1, h2] at hk
      · simp [h1, h2] at hk
        exact ⟨e, he, hk, h1, h2⟩
  · rintro ⟨e, he, hk, h1, h2⟩
    refine ⟨e, he, ?_⟩
    rw [if_neg h1, if_neg h2]
    exact congrArg some hk

/-- If no element of `es` contributes at key `k`, the capture fold leaves the
accumulator's binding at `k` unchanged. -/
theorem lookup_foldl_captureStep_not_mem (es : List Element)
    (m : List (String × String)) (k : String) (h : k ∉ fieldKeys es) :
    (es.foldl captureStep m).lookup k = m.lookup k := by
  induction es generalizing m with
  | nil => rfl
  | cons e es ih =>
      have hk : k ∉ fieldKeys es := by
        intro hmem
        exact h (by
          rw [mem_fieldKeys_iff] at hmem ⊢
          obtain ⟨e', he', rest⟩ := hmem
          exact ⟨e', List.mem_cons_of_mem _ he', rest⟩)
      have hne : rawKey e ≠ "" → e.ty ≠ "file" → rawKey e ≠ k := by
        intro h1 h2 hkey
        exact h (by
          rw [mem_fieldKeys_iff]
          exact ⟨e, List.mem_cons_self _ _, hkey, h1, h2⟩)
      rw [List.foldl_cons, ih _ hk]
      unfold captureStep
      by_cases h1 : rawKey e = ""
      · simp [h1]
      · by_cases hc : isCheckable e.ty = true
        · have : e.ty ≠ "file" := by
            intro hf
            simp [isCheckable, hf] at hc
          simp [h1, hc, lookup_setField_ne _ _ _ _ (Ne.symm (hne h1 this))]
        · by_cases h2 : e.ty = "file"
          · simp [h1, hc, h2, isCheckable]
          · simp [h1, hc, h2, lookup_setField_ne _ _ _ _ (Ne.symm (hne h1 h2))]

-- ### Structural facts about restoration

theorem restoreElem_name (snap : Snapshot) (e : Element) :
    (restoreElem snap e).name = e.name := by
  unfold restoreElem
  split
  · rfl
  · split
    · rfl
    · split <;> rfl

theorem restoreElem_id (snap : Snapshot) (e : Element) :
    (restoreElem snap e).id = e.id := by
  unfold restoreElem
  split
  · rfl
  · split
    · rfl
    · split <;> rfl

theorem restoreElem_ty (snap : Snapshot) (e : Element) :
    (restoreElem snap e).ty = e.ty := by
  unfold restoreElem
  split
  · rfl
  · split
    · rfl
    · split <;> rfl

theorem restoreElem_rawKey (snap : Snapshot) (e : Element) :
    rawKey (restoreElem snap e) = rawKey e := by
  unfold rawKey
  rw [restoreElem_name, restoreElem_id]

theorem fieldKeys_restoreIntoForm (snap : Snapshot) (es : List Element) :
    fieldKeys (restoreIntoForm snap es) = fieldKeys es := by
  induction es with
  | nil => rfl
  | cons e es ih =>
      unfold restoreIntoForm at ih ⊢
      simp only [List.map_cons, fieldKeys, List.filterMap_cons] at ih ⊢
      rw [restoreElem_rawKey, restoreElem_ty]
      by_cases h1 : rawKey e = ""
      · simpa [h1] using ih
      · by_cases h2 : e.ty = "file"
        · simpa [h1, h2] using ih
        · simpa [h1, h2] using ih

theorem rawKey_congr (e e' : Element) (hn : e'.name = e.name) (hi : e'.id = e.id) :
    rawKey e' = rawKey e := by
  unfold rawKey
  rw [hn, hi]

theorem freshPairB_spec (e e' : Element) (h : freshPairB e e' = true) :
    e'.name = e.name ∧ e'.id = e.id ∧ e'.ty = e.ty ∧
      (isCheckable e.ty = true → e'.value = e.value) := by
  unfold freshPairB at h
  simp only [Bool.and_eq_true, Bool.or_eq_true, Bool.not_eq_true', beq_iff_eq] at h
  obtain ⟨⟨⟨hn, hi⟩, hty⟩, hv⟩ := h
  refine ⟨hn, hi, hty, fun hc => ?_⟩
  rcases hv with hv | hv
  · rw [hc] at hv; cases hv
  · exact hv

theorem fieldKeys_eq_of_fresh :
    ∀ es es', freshListB es es' = true → fieldKeys es' = fieldKeys es := by
  intro es
  induction es with
  | nil =>
      intro es' h
      cases es' with
      | nil => rfl
      | cons e' t => simp [freshListB] at h
  | cons e es ih =>
      intro es' h
      cases es' with
      | nil => simp [freshListB] at h
      | cons e' es'' =>
          simp only [freshListB, Bool.and_eq_true] at h
          obtain ⟨hp, ht⟩ := h
          obtain ⟨hn, hi, hty, _⟩ := freshPairB_spec e e' hp
          simp only [fieldKeys, List.filterMap_cons]
          rw [rawKey_congr e e' hn hi, hty]
          have := ih es'' ht
          simp only [fieldKeys] at this
          rw [this]

theorem captureStep_lookup_self (m : List (String × String)) (e : Element)
    (k : String) (hk : rawKey e = k) (h1 : rawKey e ≠ "") (h2 : e.ty ≠ "file") :
    (captureStep m e).lookup k = some (contrib e) := by
  subst hk
  unfold captureStep contrib
  by_cases hc : isCheckable e.ty = true
  · simp [h1, hc, lookup_setField_self]
  · simp [h1, hc, h2, lookup_setField_self]

/-- The pointwise heart of the round-trip: restoring the captured value into
a fresh instance of an element makes it contribute the captured value again. -/
theorem contrib_restoreElem (snap : Snapshot) (e e' : Element)
    (hn : e'.name = e.name) (hi : e'.id = e.id) (hty : e'.ty = e.ty)
    (hv : isCheckable e.ty = true → e'.value = e.value)
    (hfile : e.ty ≠ "file")
    (hget : jsGet snap (rawKey e) = some (.str (contrib e))) :
    contrib (restoreElem snap e') = contrib e := by
  have hkey : rawKey e' = rawKey e := rawKey_congr e e' hn hi
  unfold restoreElem
  rw [hkey, hget]
  by_cases hc : isCheckable e.ty = true
  · have hv' := hv hc
    simp only [hty, hc, if_true]
    unfold contrib
    simp only [hty, hc, if_true]
    unfold jsEqStr
    by_cases hch : e.checked = true
    · simp [hch, hv']
    · simp only [Bool.not_eq_true] at hch
      simp only [hch, if_false, hv']
      by_cases hval : e.value = ""
      · simp [hval]
      · simp [beq_false_of_ne (Ne.symm hval), hval]
  · have hcE : isCheckable e'.ty = false := by
      rw [hty]; revert hc; cases isCheckable e.ty <;> simp
    have hfE : e'.ty ≠ "file" := by rw [hty]; exact hfile
    simp [hcE, hfE, contrib, jsOrEmpty, hc]

/-- Main induction for the round-trip: if the snapshot agrees with the
capture of `es` on every field key, then capturing the restored fresh form
agrees with capturing `es` on every field key. Both folds are generalized
over their accumulators. -/
theorem capture_restore_lookup (snap : Snapshot) :
    ∀ (es es' : List Element) (m m' : List (String × String)),
      freshListB es es' = true →
      (∀ k, k ∈ fieldKeys es →
        jsGet snap k = ((es.foldl captureStep m).lookup k).map .str) →
      ∀ k, k ∈ fieldKeys es →
        ((restoreIntoForm snap es').foldl captureStep m').lookup k
          = (es.foldl captureStep m).lookup k := by
  intro es
  induction es with
  | nil =>
      intro es' m m' _ _ k hk
      simp [fieldKeys] at hk
  | cons e es ih =>
      intro es' m m' hfresh hs k hk
      cases es' with
      | nil => simp [freshListB] at hfresh
      | cons e' es'' =>
          simp only [freshListB, Bool.and_eq_true] at hfresh
          obtain ⟨hp, htail⟩ := hfresh
          obtain ⟨hn, hi, hty, hv⟩ := freshPairB_spec e e' hp
          simp only [restoreIntoForm, List.map_cons, List.foldl_cons]
          by_cases hmem : k ∈ fieldKeys es
          · exact ih es'' (captureStep m e) (captureStep m' (restoreElem snap e'))
              htail
              (fun k' hk' => by
                have := hs k' (by
                  rw [mem_fieldKeys_iff] at hk' ⊢
                  obtain ⟨e₀, he₀, rest⟩ := hk'
                  exact ⟨e₀, List.mem_cons_of_mem _ he₀, rest⟩)
                rwa [List.foldl_cons] at this)
              k hmem
          · -- `e` is the (only surviving) contributor at `k`
            have hcontrib : rawKey e = k ∧ rawKey e ≠ "" ∧ e.ty ≠ "file" := by
              rw [mem_fieldKeys_iff] at hk
              obtain ⟨e₀, he₀, hk₀, h1₀, h2₀⟩ := hk
              rcases List.mem_cons.mp he₀ with rfl | hmem₀
              · exact ⟨hk₀, h1₀, h2₀⟩
              · exact absurd ((mem_fieldKeys_iff es k).mpr ⟨e₀, hmem₀, hk₀, h1₀, h2₀⟩) hmem
            obtain ⟨hkeq, hne, hnf⟩ := hcontrib
            have hrhs : (es.foldl captureStep (captureStep m e)).lookup k
                = some (contrib e) := by
              rw [lookup_foldl_captureStep_not_mem es _ k hmem,
                captureStep_lookup_self m e k hkeq hne hnf]
            have hget : jsGet snap (rawKey e) = some (.str (contrib e)) := by
              have := hs k hk
              rw [List.foldl_cons, hrhs] at this
              rw [hkeq]
              exact this
            have hlhs_notmem : k ∉ fieldKeys (restoreIntoForm snap es'') := by
              rw [fieldKeys_restoreIntoForm, fieldKeys_eq_of_fresh es es'' htail]
              exact hmem
            have hkey' : rawKey (restoreElem snap e') = k := by
              rw [restoreElem_rawKey, rawKey_congr e e' hn hi, hkeq]
            have hne' : rawKey (restoreElem snap e') ≠ "" := by
              rw [hkey']
              rw [hkeq] at hne
              exact hne
            have hnf' : (restoreElem snap e').ty ≠ "file" := by
              rw [restoreElem_ty, hty]
              exact hnf
            have : ((restoreIntoForm snap es'').foldl captureStep
                (captureStep m' (restoreElem snap e'))).lookup k
                = some (contrib (restoreElem snap e')) := by
              rw [lookup_foldl_captureStep_not_mem _ _ k hlhs_notmem,
                captureStep_lookup_self m' (restoreElem snap e') k hkey' hne' hnf']
            unfold restoreIntoForm at this
            rw [this, hrhs,
              contrib_restoreElem snap e e' hn hi hty hv hnf hget]

/-- C1. Round-trip restore: capture a form with `getFormData`, save it with
`saveToLocalStorage`, and run `restoreSavedData` into a freshly loaded empty
instance of the same form (structurally matching, with no tracked field
non-empty, i.e. `isFormFilled = false`); capturing again yields a fields map
equal to the captured one on every field key. The field keys are assumed not
to collide with the `_timestamp`/`_formId` metadata slots of the snapshot
object, and the form id is non-empty (ids addressable by
`document.getElementById`). -/
theorem c1_roundtrip_restore (F F' : List Element) (cur : String) (t₀ t₁ : Nat)
    (hfresh : freshListB F F' = true)
    (hempty : isFormFilled F' = false)
    (hcur : cur ≠ "")
    (hts : "_timestamp" ∉ fieldKeys F)
    (hfid : "_formId" ∉ fieldKeys F) :
    restoreSavedData (saveToLocalStorage none (getFormData F cur t₀))
        (docOf cur F') cur cur
      = some (restoreIntoForm (getFormData F cur t₀) F') ∧
    ∀ k, k ∈ fieldKeys F →
      (getFormData (restoreIntoForm (getFormData F cur t₀) F') cur t₁).fields.lookup k
        = (getFormData F cur t₀).fields.lookup k := by
  have hdoc : restoreSavedData (saveToLocalStorage none (getFormData F cur t₀))
      (docOf cur F') cur cur
      = some (restoreIntoForm (getFormData F cur t₀) F') := by
    simp [restoreSavedData, saveToLocalStorage, getFormData, docOf,
      isFormFilledDoc, hempty]
  refine ⟨hdoc, fun k hk => ?_⟩
  have hs : ∀ k, k ∈ fieldKeys F →
      jsGet (getFormData F cur t₀) k
        = ((F.foldl captureStep []).lookup k).map .str := by
    intro k' hk'
    have h1 : k' ≠ "_timestamp" := fun h => hts (h ▸ hk')
    have h2 : k' ≠ "_formId" := fun h => hfid (h ▸ hk')
    unfold jsGet
    rw [if_neg h1, if_neg h2]
    rfl
  exact capture_restore_lookup (getFormData F cur t₀) F F' [] [] hfresh hs k hk

/-- Witness for C1 at a concrete two-element form (an email input and a
checked checkbox): the captured checkbox value survives the round trip. -/
theorem c1_roundtrip_restore_witness :
    (getFormData
        (restoreIntoForm
          (getFormData
            [⟨"email", "email", "email", "a@b", false⟩,
             ⟨"", "subscribe", "checkbox", "yes", true⟩] "membershipForm1" 3)
          [⟨"email", "email", "email", "", false⟩,
           ⟨"", "subscribe", "checkbox", "yes", false⟩])
        "membershipForm1" 9).fields.lookup "subscribe"
      = (getFormData
          [⟨"email", "email", "email", "a@b", false⟩,
           ⟨"", "subscribe", "checkbox", "yes", true⟩] "membershipForm1" 3).fields.lookup
          "subscribe" :=
  (c1_roundtrip_restore
      [⟨"email", "email", "email", "a@b", false⟩,
       ⟨"", "subscribe", "checkbox", "yes", true⟩]
      [⟨"email", "email", "email", "", false⟩,
       ⟨"", "subscribe", "checkbox", "yes", false⟩]
      "membershipForm1" 3 9 (by decide) (by decide) (by decide) (by decide)
      (by decide)).2 "subscribe" (by decide)

/-- C3. The claim says a form with a non-empty tracked text field (here a
text input `firstName` holding `"Asha"`, a genuine user field, not a
signature/derived one) is never restored over. The code's `isFormFilled`
skips every element whose id *contains* `"Name"` — its comment says this is
meant to skip the file-name indicator spans, but those are not form
elements; instead it skips real inputs like `firstName` — so the form counts
as unfilled and `restoreSavedData` overwrites the user's value. -/
theorem c3_restore_overwrites_name_field :
    restoreSavedData
        (some (.parsable ⟨[("firstName", "Bose")], 5, "membershipForm1"⟩))
        (docOf "membershipForm1" [⟨"firstName", "firstName", "text", "Asha", false⟩])
        "membershipForm1" "membershipForm1"
      = some [⟨"firstName", "firstName", "text", "Bose", false⟩] ∧
    isFormFilled [⟨"firstName", "firstName", "text", "Asha", false⟩] = false ∧
    strIncludes "firstName" "Name" = true ∧
    jsTrim "Asha" ≠ "" := by decide

-- ### Debounce (C2, C9)

/-- In a burst where every further change arrives within the debounce
window, each `handleFormChange` cancels the pending timer and reschedules;
no timer fires during the burst. -/
theorem foldl_handleFormChange_burst (ts : List Nat) :
    ∀ (t : Nat) (acc : List Nat),
      List.Chain' (fun a b => a ≤ b ∧ b < a + DEBOUNCE_MS) (t :: ts) →
      ts.foldl (handleFormChange true) ⟨some (t + DEBOUNCE_MS), acc⟩
        = ⟨some (ts.getLastD t + DEBOUNCE_MS), acc⟩ := by
  induction ts with
  | nil => intro t acc _; rfl
  | cons t' ts ih =>
      intro t acc h
      rw [List.chain'_cons] at h
      obtain ⟨⟨hle, hlt⟩, htail⟩ := h
      rw [List.foldl_cons]
      have hstep : handleFormChange true ⟨some (t + DEBOUNCE_MS), acc⟩ t'
          = ⟨some (t' + DEBOUNCE_MS), acc⟩ := by
        unfold handleFormChange deliverDue
        simp [Nat.not_le.mpr hlt]
      rw [hstep, ih t' acc htail, List.getLastD_cons]

/-- C2. Debounce coalescing: for any burst of `N ≥ 1` `handleFormChange`
calls (autosave enabled) in which each consecutive pair is separated by less
than `DEBOUNCE_MS`, exactly one `saveFormData` execution results, occurring
`DEBOUNCE_MS` after the last call — each new call cancels the previously
scheduled save (trailing-edge debounce). -/
theorem c2_debounce_coalescing (t : Nat) (ts : List Nat)
    (h : List.Chain' (fun a b => a ≤ b ∧ b < a + DEBOUNCE_MS) (t :: ts)) :
    drain (runChanges true (t :: ts)) = [ts.getLastD t + DEBOUNCE_MS] := by
  unfold runChanges
  rw [List.foldl_cons]
  have hfirst : handleFormChange true ⟨none, []⟩ t = ⟨some (t + DEBOUNCE_MS), []⟩ := by
    unfold handleFormChange deliverDue
    simp
  rw [hfirst, foldl_handleFormChange_burst ts t [] h]
  rfl

/-- Witness for C2: three changes at 0, 1000 and 1500 ms produce exactly one
save, at 3500 ms. -/
theorem c2_debounce_coalescing_witness :
    drain (runChanges true (0 :: [1000, 1500])) = [[1000, 1500].getLastD 0 + DEBOUNCE_MS] :=
  c2_debounce_coalescing 0 [1000, 1500] (by
    simp only [List.chain'_cons, List.chain'_singleton, and_true]
    decide)

/-- C9 counterexample: with a save scheduled at `DEBOUNCE_MS` (change at
time 0) and a forced `saveFormData(true)` at time 1000, the pending timer is
NOT cancelled — it is still scheduled afterwards, and the run executes two
saves (at 1000 and at 2000), not one. The claim says the forced flush
cancels the pending timer so that no second save occurs. -/
theorem c9_counterexample :
    (forcedSaveAt true (handleFormChange true ⟨none, []⟩ 0) 1000).saveTimer
      = some DEBOUNCE_MS ∧
    drain (forcedSaveAt true (handleFormChange true ⟨none, []⟩ 0) 1000)
      = [1000, 2000] := by decide

/-- C9 (amended). The forced save performed by the `beforeunload` handler
(`saveFormData(true)`) executes its save immediately but does not cancel the
pending debounce timer (`saveFormData` contains no `clearTimeout`); a timer
not yet due remains scheduled and still fires, producing a second save for
the same change window. -/
theorem c9_forced_save_does_not_cancel (f t : Nat) (acc : List Nat) (h : t < f) :
    forcedSaveAt true ⟨some f, acc⟩ t = ⟨some f, acc ++ [t]⟩ ∧
    drain (forcedSaveAt true ⟨some f, acc⟩ t) = acc ++ [t, f] := by
  have hno : ¬ f ≤ t := Nat.not_le.mpr h
  unfold forcedSaveAt deliverDue drain
  simp [hno]

/-- Witness for C9 (amended) at a pending timer due at 2000 and a forced
save at 500. -/
theorem c9_forced_save_does_not_cancel_witness :
    drain (forcedSaveAt true ⟨some 2000, []⟩ 500) = [] ++ [500, 2000] :=
  (c9_forced_save_does_not_cancel 2000 500 [] (by decide)).2

-- ### Terminal clear (C4)

/-- C4 counterexample: a successful `submitForm` flow (`success: true` reply
to `submitApplication`) on a state holding a stored snapshot does not remove
the snapshot and does not disable autosave — the claim asserts both. -/
theorem c4_counterexample :
    ¬ ((submitForm "register" "U1" ⟨true, "APP-1", ""⟩
          ⟨some (.parsable ⟨[("email", "a@b")], 3, "membershipForm1"⟩), true, none⟩).storage
        = none ∧
       (submitForm "register" "U1" ⟨true, "APP-1", ""⟩
          ⟨some (.parsable ⟨[("email", "a@b")], 3, "membershipForm1"⟩), true, none⟩).autosaveEnabled
        = false) := by decide

/-- C4 (amended). `submitForm` never touches the persisted snapshot or the
autosave enabled flag — on success it only shows the success modal; the
snapshot is removed from storage only when `clearSavedData` runs, in
particular via `setEnabled(false)`. -/
theorem c4_submit_leaves_snapshot (formType uniqueId : String)
    (resp : ApiResponse) (st : AppState) :
    (submitForm formType uniqueId resp st).storage = st.storage ∧
    (submitForm formType uniqueId resp st).autosaveEnabled = st.autosaveEnabled ∧
    clearSavedData st.storage = none ∧
    (setEnabled false st.storage).2 = none := by
  by_cases h : resp.success = true
  · by_cases hf : (formType == "register") = true <;>
      simp [submitForm, clearSavedData, setEnabled, h, hf]
  · simp [submitForm, clearSavedData, setEnabled, h]

-- ### Load tolerance (C5)

/-- C5 counterexample: a stored payload whose `_formId` is the empty string
does not match the form being restored into (`"" ≠ "membershipForm1"`), yet
`restoreSavedData` is not skipped: the `formData._formId || currentFormId`
fallback resolves the empty id to the current form and restoration proceeds,
changing the form. The claim says a formId mismatch always skips restoration
and leaves the form unchanged. -/
theorem c5_counterexample :
    restoreSavedData (some (.parsable ⟨[("email", "x@y")], 3, ""⟩))
        (docOf "membershipForm1" [⟨"email", "email", "email", "", false⟩])
        "membershipForm1" "membershipForm1"
      = some [⟨"email", "email", "email", "x@y", false⟩] ∧
    ("" : String) ≠ "membershipForm1" := by decide

/-- C5 (amended). Loading/restoring is a total function (the `JSON.parse`
exception is caught): a missing or unparsable stored payload leaves the
document unchanged, and a snapshot whose `formId` is non-empty and differs
from the current form's id leaves the current form unchanged (restoration
targets only the form named by the snapshot and is skipped when no such form
exists); an empty/missing `formId` falls back to the current form rather
than being treated as a mismatch. -/
theorem c5_load_tolerance (doc : String → Option (List Element))
    (cur raw : String) (fd : Snapshot)
    (h1 : fd.formId ≠ "") (h2 : fd.formId ≠ cur) :
    restoreSavedData none doc cur = doc ∧
    restoreSavedData (some (.junk raw)) doc cur = doc ∧
    restoreSavedData (some (.parsable fd)) doc cur cur = doc cur := by
  refine ⟨rfl, rfl, ?_⟩
  simp only [restoreSavedData, if_neg h1]
  cases hdoc : doc fd.formId with
  | none => rfl
  | some form =>
      by_cases hfill : isFormFilledDoc doc cur = true
      · simp [hfill]
      · simp [hfill, Ne.symm h2]

/-- Witness for C5 at a snapshot naming `updateForm1` restored while
`membershipForm1` is current: the current form's document entry is
untouched. -/
theorem c5_load_tolerance_witness :
    restoreSavedData (some (.parsable ⟨[("email", "x@y")], 3, "updateForm1"⟩))
        (docOf "membershipForm1" [⟨"email", "email", "email", "", false⟩])
        "membershipForm1" "membershipForm1"
      = docOf "membershipForm1" [⟨"email", "email", "email", "", false⟩]
          "membershipForm1" :=
  (c5_load_tolerance
      (docOf "membershipForm1" [⟨"email", "email", "email", "", false⟩])
      "membershipForm1" "bad json"
      ⟨[("email", "x@y")], 3, "updateForm1"⟩ (by decide) (by decide)).2.2

-- ### Retry ceiling and local persistence (C6)

/-- C6. On every remote sync failure `retryCount` is incremented; the effect
is exactly one retry scheduled after a fixed 5000 ms (not exponential) while
the new count is below `MAX_RETRIES = 3`, and the working-offline notice
with no scheduled retry once it reaches the maximum; any success resets
`retryCount` to 0; and `saveFormData` writes the snapshot to local storage
regardless of the sync outcome. -/
theorem c6_retry_ceiling (storage : Option Stored) (tok : String)
    (rc ls : Nat) (fetchResp : Option String) (fd : Snapshot) (now : Nat)
    (form : List Element) (cur : String) (force : Bool) (outcome : SyncOutcome) :
    (syncToServer ⟨storage, true, some tok, rc, ls⟩ fetchResp .fail fd now).1.retryCount
      = rc + 1 ∧
    (syncToServer ⟨storage, true, some tok, rc, ls⟩ fetchResp .fail fd now).2.2
      = (if rc + 1 < MAX_RETRIES then .retryAfter 5000 else .offlineNotice) ∧
    (syncToServer ⟨storage, true, some tok, rc, ls⟩ fetchResp .ok fd now).1.retryCount
      = 0 ∧
    (saveFormData ⟨storage, true, some tok, rc, ls⟩ form cur now force fetchResp
        outcome).1.storage
      = some (.parsable (getFormData form cur now)) := by
  refine ⟨rfl, rfl, rfl, ?_⟩
  unfold saveFormData
  by_cases hs : (force || decide (now - ls > SAVE_INTERVAL)) = true
  · cases outcome <;> simp [hs, syncToServer, saveToLocalStorage]
  · simp [hs, saveToLocalStorage]

-- ### Token precondition (C8)

/-- C8. Every remote push of `syncToServer` carries the held anti-forgery
token; when the token is absent at push time the client first runs
`loadCsrfToken` and the push carries the freshly fetched token; and when
both the initial `loadCsrfToken` of `initialize` and the pre-push fetch have
failed (two failures in a row), the push is abandoned without consuming a
retry — no request is sent and `retryCount` is unchanged. -/
theorem c8_token_precondition (storage : Option Stored) (rc ls : Nat)
    (fd : Snapshot) (now : Nat) (outcome : SyncOutcome) (t : String)
    (f : Option String) :
    (syncToServer ⟨storage, true, loadCsrfToken none none, rc, ls⟩ none outcome
        fd now).2.1 = none ∧
    (syncToServer ⟨storage, true, loadCsrfToken none none, rc, ls⟩ none outcome
        fd now).1.retryCount = rc ∧
    (syncToServer ⟨storage, true, none, rc, ls⟩ (some t) outcome fd now).2.1
      = some ⟨t, fd⟩ ∧
    (syncToServer ⟨storage, true, some t, rc, ls⟩ f outcome fd now).2.1
      = some ⟨t, fd⟩ := by
  refine ⟨rfl, rfl, ?_, ?_⟩ <;> cases outcome <;> rfl

-- ### File-input exclusion (C7)

/-- C7 counterexample: a successful `handleFileUpload` on the `aadharFront`
file input persists a snapshot whose fields map contains the uploaded file's
URL keyed by that file input's id — an entry keyed by a file-input element
of the form, which the claim says can never be persisted by any operation. -/
theorem c7_counterexample :
    (handleFileUpload ⟨none, true, none, 0, 0⟩
        [⟨"", "aadharFront", "file", "", false⟩,
         ⟨"email", "email", "email", "a@b", false⟩]
        "membershipForm1" ⟨"", "aadharFront", "file", "", false⟩ true
        (some "https://files/u1") 7).storage
      = some (.parsable ⟨[("email", "a@b"), ("aadharFront", "https://files/u1")],
          7, "membershipForm1"⟩) ∧
    Element.ty ⟨"", "aadharFront", "file", "", false⟩ = "file" ∧
    (⟨"", "aadharFront", "file", "", false⟩ : Element) ∈
      [(⟨"", "aadharFront", "file", "", false⟩ : Element),
       ⟨"email", "email", "email", "a@b", false⟩] ∧
    [("email", "a@b"), ("aadharFront", "https://files/u1")].lookup "aadharFront"
      = some "https://files/u1" := by decide

/-- C7 (amended). Snapshots captured by `getFormData` (hence everything
`saveFormData` persists) contain no entry keyed by a file input: a key
addressed only by file-input elements is absent from the captured fields
map. `handleFileUpload` is the one exception: it persists the uploaded
file's remote URL (never file content) under the file input's id. -/
theorem c7_file_exclusion (es : List Element) (cur : String) (now : Nat)
    (k : String) (h : ∀ e ∈ es, rawKey e = k → e.ty = "file") :
    (getFormData es cur now).fields.lookup k = none ∧
    ∀ (storage : Option Stored) (tok : Option String) (rc ls : Nat)
      (fi : Element) (url : String),
      (handleFileUpload ⟨storage, true, tok, rc, ls⟩ es cur fi true (some url)
          now).storage
        = some (.parsable ⟨setField (getFormData es cur now).fields fi.id url,
            now, cur⟩) := by
  constructor
  · have hnot : k ∉ fieldKeys es := by
      intro hmem
      rw [mem_fieldKeys_iff] at hmem
      obtain ⟨e, he, hk, _, hnf⟩ := hmem
      exact hnf (h e he hk)
    unfold getFormData
    rw [lookup_foldl_captureStep_not_mem es [] k hnot]
    rfl
  · intro storage tok rc ls fi url
    rfl

/-- Witness for C7 at a form whose only `aadharFront`-keyed element is the
file input itself. -/
theorem c7_file_exclusion_witness :
    (getFormData [⟨"", "aadharFront", "file", "", false⟩,
        ⟨"email", "email", "email", "a@b", false⟩]
      "membershipForm1" 7).fields.lookup "aadharFront" = none :=
  (c7_file_exclusion
      [⟨"", "aadharFront", "file", "", false⟩,
       ⟨"email", "email", "email", "a@b", false⟩]
      "membershipForm1" 7 "aadharFront" (by decide)).1

-- ### Timestamp-tainted dirtiness check (C10)

/-- C10. `hasUnsavedChanges` compares the stored string with the stringify
of a fresh `getFormData` capture, which embeds a new `_timestamp`; whenever
a stored snapshot exists and the call happens at a different millisecond
than the stored `_timestamp`, it returns `true` even though every field
value and the form id agree — and the `beforeunload` handler therefore
forces a save and requests the confirm-leave prompt. -/
theorem c10_timestamp_always_dirty (s : Snapshot) (es : List Element)
    (cur : String) (t₁ : Nat)
    (hfields : s.fields = (getFormData es cur t₁).fields)
    (hid : s.formId = cur)
    (ht : s.timestamp ≠ t₁) :
    hasUnsavedChanges (some (.parsable s)) (getFormData es cur t₁) = true ∧
    onBeforeUnload (some (.parsable s)) (getFormData es cur t₁) = ⟨true, true⟩ := by
  have hne : s ≠ getFormData es cur t₁ := by
    intro h
    exact ht (by rw [h]; rfl)
  have h1 : hasUnsavedChanges (some (.parsable s)) (getFormData es cur t₁) = true := by
    unfold hasUnsavedChanges
    simp [hne]
  refine ⟨h1, ?_⟩
  unfold onBeforeUnload
  rw [h1]
  rfl

/-- Witness for C10: identical fields and form id, stored `_timestamp` 0,
fresh capture at millisecond 1. -/
theorem c10_timestamp_always_dirty_witness :
    hasUnsavedChanges (some (.parsable ⟨[("email", "a@b")], 0, "membershipForm1"⟩))
        (getFormData [⟨"email", "email", "email", "a@b", false⟩] "membershipForm1" 1)
      = true :=
  (c10_timestamp_always_dirty ⟨[("email", "a@b")], 0, "membershipForm1"⟩
      [⟨"email", "email", "email", "a@b", false⟩] "membershipForm1" 1
      (by decide) (by decide) (by decide)).1
